import Mathlib

/-!
Shallow embedding of the cluster session manager in `src/src/extension.ts`
(the `ESExplorerProvider` class and the command handlers in `activate`).

State is modelled explicitly: the in-memory maps (`clusters`, `clients`,
`clusterHealth`), the active-cluster pointer, the persisted key-value store
(`esExt.clusterIds`, `esExt.connectedClusters`, `esExt.autoRefreshEnabled`,
`esExt.caCertificate`) and the secret store (cluster configs and credential
fields).  Network effects (ping outcomes, health query results) and
interactive prompts are supplied by explicit environment records.
JS `Map`s become association lists; JS truthiness of strings is modelled
by `truthy`.
-/

namespace ProphESy

/-- Association-list lookup: first binding wins, mirroring `Map.get`. -/
def mget {α : Type} (m : List (String × α)) (k : String) : Option α :=
  match m with
  | [] => none
  | (k', v) :: rest => if k' = k then some v else mget rest k

/-- Association-list insert/update mirroring `Map.set`: replaces the first
binding of the key in place, otherwise appends at the end. -/
def mset {α : Type} (m : List (String × α)) (k : String) (v : α) :
    List (String × α) :=
  match m with
  | [] => [(k, v)]
  | (k', v') :: rest =>
    if k' = k then (k, v) :: rest else (k', v') :: mset rest k v

/-- Association-list delete mirroring `Map.delete` / `secrets.delete`. -/
def mdel {α : Type} (m : List (String × α)) (k : String) :
    List (String × α) :=
  m.filter (fun p => p.1 != k)

/-- JS truthiness of an optional string: `undefined` and `""` are falsy. -/
def truthy (o : Option String) : Bool :=
  match o with
  | none => false
  | some s => s != ""

/-- Mirror of the `ClusterConfig` interface. -/
structure ClusterConfig where
  id : String
  name : String
  deploymentType : String
  nodeUrl : Option String
  cloudId : Option String
  authMethod : String
  disableSSL : Bool
deriving Repr, DecidableEq

/-- Raw response of `client.cluster.health()`; absent fields are `none`
(JS `undefined`). -/
structure RawHealth where
  status : Option String
  cluster_name : Option String
  number_of_nodes : Option Nat
  number_of_data_nodes : Option Nat
  active_primary_shards : Option Nat
  active_shards : Option Nat
deriving Repr, DecidableEq

/-- Mirror of the `ClusterHealth` interface (a Health Cache snapshot). -/
structure ClusterHealth where
  status : String
  clusterName : String
  numberOfNodes : Nat
  numberOfDataNodes : Nat
  activePrimaryShards : Nat
  activeShards : Nat
  lastChecked : Nat
deriving Repr, DecidableEq

/-- JS `x || d` on an optional string field. -/
def orStr (o : Option String) (d : String) : String :=
  match o with
  | none => d
  | some s => if s = "" then d else s

/-- Snapshot built from a successful health response
(`health.status || 'unknown'`, numeric fields defaulting to 0). -/
def mkSnapshot (h : RawHealth) (now : Nat) : ClusterHealth :=
  { status := orStr h.status "unknown"
    clusterName := orStr h.cluster_name "Unknown"
    numberOfNodes := h.number_of_nodes.getD 0
    numberOfDataNodes := h.number_of_data_nodes.getD 0
    activePrimaryShards := h.active_primary_shards.getD 0
    activeShards := h.active_shards.getD 0
    lastChecked := now }

/-- Snapshot written when a health query throws. -/
def unknownSnapshot (now : Nat) : ClusterHealth :=
  { status := "unknown"
    clusterName := "Unknown"
    numberOfNodes := 0
    numberOfDataNodes := 0
    activePrimaryShards := 0
    activeShards := 0
    lastChecked := now }

/-- Snapshot written by a health query whose outcome is `r`
(`none` models a thrown error). -/
def tickSnapshot (r : Option RawHealth) (now : Nat) : ClusterHealth :=
  match r with
  | some h => mkSnapshot h now
  | none => unknownSnapshot now

/-- Elasticsearch client construction options actually passed to
`new Client(...)`; this is what a Connection Registry handle records. -/
structure ClientOptions where
  node : Option String := none
  cloud : Option String := none
  authBasic : Option (String × String) := none
  authApiKey : Option String := none
  sslRejectUnauthorized : Bool := true
  tlsCa : Option String := none
deriving Repr, DecidableEq

/-- Whole observable state of the extension: in-memory provider fields,
the persisted global state and the secret store, plus the process-wide
TLS flag (`process.env.NODE_TLS_REJECT_UNAUTHORIZED = '0'`) and a count
of change-notification firings (`this.refresh()`). -/
structure ExtState where
  clusters : List (String × ClusterConfig)
  clients : List (String × ClientOptions)
  clusterHealth : List (String × ClusterHealth)
  activeClusterId : Option String
  autoRefreshEnabled : Bool
  refreshTimerRunning : Bool
  gsClusterIds : List String
  gsConnectedClusters : List String
  gsAutoRefreshEnabled : Bool
  caCertificate : Option String
  secretConfigs : List (String × ClusterConfig)
  secretCreds : List (String × String)
  envTlsVerifyDisabled : Bool
  refreshCount : Nat
deriving Repr, DecidableEq

/-- The all-empty initial state. -/
def emptyState : ExtState :=
  { clusters := []
    clients := []
    clusterHealth := []
    activeClusterId := none
    autoRefreshEnabled := false
    refreshTimerRunning := false
    gsClusterIds := []
    gsConnectedClusters := []
    gsAutoRefreshEnabled := false
    caCertificate := none
    secretConfigs := []
    secretCreds := []
    envTlsVerifyDisabled := false
    refreshCount := 0 }

/-- Secret-store key `esExt.cluster.<id>.<field>`. -/
def credKey (id field : String) : String :=
  "esExt.cluster." ++ id ++ "." ++ field

/-- Mirror of `saveClusterConfig`: store the config secret and append the
id to `esExt.clusterIds` if absent. -/
def saveClusterConfig (s : ExtState) (config : ClusterConfig) : ExtState :=
  let s1 := { s with secretConfigs := mset s.secretConfigs config.id config }
  if s1.gsClusterIds.contains config.id then s1
  else { s1 with gsClusterIds := s1.gsClusterIds ++ [config.id] }

/-- Mirror of `ESExplorerProvider.addCluster`. -/
def addCluster (s : ExtState) (config : ClusterConfig) : ExtState :=
  let s1 := { s with clusters := mset s.clusters config.id config }
  let s2 := saveClusterConfig s1 config
  let s3 :=
    if s2.activeClusterId = none then
      { s2 with activeClusterId := some config.id }
    else s2
  { s3 with refreshCount := s3.refreshCount + 1 }

/-- Mirror of `removeConnectedCluster`. -/
def removeConnectedCluster (s : ExtState) (clusterId : String) : ExtState :=
  { s with gsConnectedClusters :=
      s.gsConnectedClusters.filter (fun x => x != clusterId) }

/-- Mirror of `saveConnectedCluster`. -/
def saveConnectedCluster (s : ExtState) (clusterId : String) : ExtState :=
  if s.gsConnectedClusters.contains clusterId then s
  else { s with gsConnectedClusters := s.gsConnectedClusters ++ [clusterId] }

/-- Mirror of `ESExplorerProvider.removeCluster`.  Note: it deletes the
client handle but never touches `clusterHealth`. -/
def removeCluster (s : ExtState) (clusterId : String) : ExtState :=
  let s1 := { s with clusters := mdel s.clusters clusterId,
                     clients := mdel s.clients clusterId }
  let s2 := removeConnectedCluster s1 clusterId
  let creds3 :=
    mdel (mdel (mdel s2.secretCreds (credKey clusterId "username"))
      (credKey clusterId "password")) (credKey clusterId "apiKey")
  let s3 := { s2 with secretConfigs := mdel s2.secretConfigs clusterId,
                      secretCreds := creds3 }
  let s4 :=
    if s3.activeClusterId = some clusterId then
      { s3 with activeClusterId := (s3.clusters.head?).map (·.1) }
    else s3
  { s4 with refreshCount := s4.refreshCount + 1 }

/-- Mirror of `storeClusterCredentials`. -/
def storeClusterCredentials (s : ExtState) (clusterId authMethod : String)
    (basicCreds : Option (String × String)) (apiKey : Option String) :
    ExtState :=
  if authMethod = "Basic: Username/Password" then
    match basicCreds with
    | some (u, p) =>
      let creds1 :=
        mset (mset s.secretCreds (credKey clusterId "username") u)
          (credKey clusterId "password") p
      { s with secretCreds := creds1 }
    | none => s
  else if authMethod = "API Key" then
    match apiKey with
    | some a =>
      { s with secretCreds := mset s.secretCreds (credKey clusterId "apiKey") a }
    | none => s
  else s

/-- Mirror of `ESExplorerProvider.disconnectFromCluster`. -/
def disconnectFromCluster (s : ExtState) (clusterId : String) : ExtState :=
  let s1 := { s with clients := mdel s.clients clusterId }
  let s2 := removeConnectedCluster s1 clusterId
  let s3 := { s2 with clusterHealth := mdel s2.clusterHealth clusterId }
  let s4 :=
    if s3.activeClusterId = some clusterId then
      { s3 with activeClusterId := none }
    else s3
  { s4 with refreshCount := s4.refreshCount + 1 }

/-- Interactive environment of one `connectToCluster` call: prompt results
(`none` models a cancelled input box), the ping outcome, and the result of
the seeding health query. -/
structure ConnectEnv where
  promptUsername : Option String
  promptPassword : Option String
  promptApiKey : Option String
  pingOk : Bool
  healthResult : Option RawHealth
  now : Nat

/-- Credential-resolution prologue of `connectToCluster` (lines 592-620):
read stored credentials, prompt for missing ones and persist the answers;
`none` means the connect call returns `false` without attempting the probe. -/
def resolveCredentials (s : ExtState) (clusterId : String)
    (config : ClusterConfig) (env : ConnectEnv) : Option ExtState :=
  if config.authMethod = "Basic: Username/Password" then
    let u0 := mget s.secretCreds (credKey clusterId "username")
    let p0 := mget s.secretCreds (credKey clusterId "password")
    if truthy u0 && truthy p0 then some s
    else
      let u1 := env.promptUsername
      let p1 := if truthy u1 then env.promptPassword else none
      if truthy u1 && truthy p1 then
        let creds1 :=
          mset (mset s.secretCreds (credKey clusterId "username") (u1.getD ""))
            (credKey clusterId "password") (p1.getD "")
        some { s with secretCreds := creds1 }
      else none
  else if config.authMethod = "API Key" then
    let a0 := mget s.secretCreds (credKey clusterId "apiKey")
    if truthy a0 then some s
    else if truthy env.promptApiKey then
      let creds1 :=
        mset s.secretCreds (credKey clusterId "apiKey") (env.promptApiKey.getD "")
      some { s with secretCreds := creds1 }
    else none
  else some s

/-- Client options built by both connect paths (lines 630-662 and
1097-1129): endpoint, stored auth if truthy, SSL-verification flag,
optional custom CA. -/
def buildClientOptions (s : ExtState) (clusterId : String)
    (config : ClusterConfig) : ClientOptions :=
  let o1 : ClientOptions :=
    if config.deploymentType = "Elastic Cloud" then { cloud := config.cloudId }
    else { node := config.nodeUrl }
  let o2 :=
    if config.authMethod = "Basic: Username/Password" then
      match mget s.secretCreds (credKey clusterId "username"),
            mget s.secretCreds (credKey clusterId "password") with
      | some u, some p =>
        if u != "" && p != "" then { o1 with authBasic := some (u, p) } else o1
      | some _, none => o1
      | none, _ => o1
    else if config.authMethod = "API Key" then
      match mget s.secretCreds (credKey clusterId "apiKey") with
      | some a => if a != "" then { o1 with authApiKey := some a } else o1
      | none => o1
    else o1
  let o3 :=
    if config.disableSSL then { o2 with sslRejectUnauthorized := false } else o2
  match s.caCertificate with
  | some ca => { o3 with tlsCa := some ca }
  | none => o3

/-- Body of the `withProgress` callback of `connectToCluster` (lines
626-709): build options (mutating the process-wide TLS flag when
`disableSSL` is set), ping, and on success install the handle, set the
active pointer unconditionally, record the id in the reconnect-set and
seed the Health Cache. -/
def connectAttempt (s : ExtState) (clusterId : String)
    (config : ClusterConfig) (env : ConnectEnv) : Bool × ExtState :=
  let opts := buildClientOptions s clusterId config
  let s2 := if config.disableSSL then { s with envTlsVerifyDisabled := true } else s
  if env.pingOk then
    let s3 := { s2 with clients := mset s2.clients clusterId opts,
                        activeClusterId := some clusterId }
    let s4 := saveConnectedCluster s3 clusterId
    let health5 :=
      mset s4.clusterHealth clusterId (tickSnapshot env.healthResult env.now)
    (true, { s4 with clusterHealth := health5 })
  else (false, s2)

/-- Mirror of `ESExplorerProvider.connectToCluster`. -/
def connectToCluster (s : ExtState) (clusterId : String) (env : ConnectEnv) :
    Bool × ExtState :=
  match mget s.clusters clusterId with
  | none => (false, s)
  | some config =>
    match resolveCredentials s clusterId config env with
    | none => (false, s)
    | some s1 => connectAttempt s1 clusterId config env

/-- Environment of one silent connect attempt: no prompts exist on this
path, only the ping outcome and the health-seed result. -/
structure SilentEnv where
  pingOk : Bool
  healthResult : Option RawHealth
  now : Nat

/-- Result of a silent connect attempt; `pingAttempted` records whether a
client was constructed and a liveness probe issued. -/
structure SilentResult where
  success : Bool
  state : ExtState
  pingAttempted : Bool
deriving Repr, DecidableEq

/-- Mirror of `ESExplorerProvider.connectToClusterSilently` (lines
1090-1170): no prompting; missing credentials simply leave the auth out
of the client options and the probe is issued anyway. -/
def connectToClusterSilently (s : ExtState) (clusterId : String)
    (env : SilentEnv) : SilentResult :=
  match mget s.clusters clusterId with
  | none => ⟨false, s, false⟩
  | some config =>
    let opts := buildClientOptions s clusterId config
    let s2 :=
      if config.disableSSL then { s with envTlsVerifyDisabled := true } else s
    if env.pingOk then
      let s3 := { s2 with clients := mset s2.clients clusterId opts }
      let s4 :=
        if s3.activeClusterId = none then
          { s3 with activeClusterId := some clusterId }
        else s3
      let health5 :=
        mset s4.clusterHealth clusterId (tickSnapshot env.healthResult env.now)
      ⟨true, { s4 with clusterHealth := health5 }, true⟩
    else ⟨false, s2, true⟩

/-- Loop body of `autoReconnectClusters` over the snapshot of the
reconnect-set taken at entry. -/
def autoReconnectLoop (s : ExtState) (ids : List String)
    (env : String → SilentEnv) (succ fail : Nat) : ExtState × Nat × Nat :=
  match ids with
  | [] => (s, succ, fail)
  | id :: rest =>
    match mget s.clusters id with
    | none =>
      autoReconnectLoop (removeConnectedCluster s id) rest env succ (fail + 1)
    | some _ =>
      let r := connectToClusterSilently s id (env id)
      if r.success then autoReconnectLoop r.state rest env (succ + 1) fail
      else
        autoReconnectLoop (removeConnectedCluster r.state id) rest env succ
          (fail + 1)

/-- Mirror of `ESExplorerProvider.autoReconnectClusters`; returns the final
state and the aggregate (reconnected, failed) counts that are reported. -/
def autoReconnectClusters (s : ExtState) (env : String → SilentEnv) :
    ExtState × Nat × Nat :=
  autoReconnectLoop s s.gsConnectedClusters env 0 0

/-- Per-tick loop of `refreshClusterHealth` over the Connection Registry
entries; each id's outcome is independent and a failure writes the
`unknown` snapshot. -/
def refreshHealthLoop (health : List (String × ClusterHealth))
    (entries : List (String × ClientOptions)) (env : String → Option RawHealth)
    (now : Nat) : List (String × ClusterHealth) :=
  match entries with
  | [] => health
  | (id, _) :: rest =>
    refreshHealthLoop (mset health id (tickSnapshot (env id) now)) rest env now

/-- Mirror of `ESExplorerProvider.refreshClusterHealth`: update every
registered id's snapshot, then fire the change notification once. -/
def refreshClusterHealth (s : ExtState) (env : String → Option RawHealth)
    (now : Nat) : ExtState :=
  { s with clusterHealth := refreshHealthLoop s.clusterHealth s.clients env now,
           refreshCount := s.refreshCount + 1 }

/-- Secret-deletion loop of the `esExt.clearAllClusterData` command. -/
def clearSecretsLoop (s : ExtState) (ids : List String) : ExtState :=
  match ids with
  | [] => s
  | id :: rest =>
    let creds1 :=
      mdel (mdel (mdel s.secretCreds (credKey id "username"))
        (credKey id "password")) (credKey id "apiKey")
    clearSecretsLoop
      { s with secretConfigs := mdel s.secretConfigs id,
               secretCreds := creds1 } rest

/-- Mirror of the `esExt.clearAllClusterData` command body (lines 279-294,
after confirmation): empties the persisted id list, reconnect-set and
auto-refresh flag and deletes the stored secrets, then fires a refresh.
It never touches the in-memory maps, the active pointer or the timer. -/
def clearAllClusterData (s : ExtState) : ExtState :=
  let ids := s.gsClusterIds
  let s1 := { s with gsClusterIds := [],
                     gsConnectedClusters := [],
                     gsAutoRefreshEnabled := false }
  let s2 := clearSecretsLoop s1 ids
  { s2 with refreshCount := s2.refreshCount + 1 }

/-- Input gathered by the `esExt.addCluster` wizard before the connection
test. -/
structure AddClusterInput where
  clusterId : String
  name : String
  deploymentType : String
  nodeUrl : Option String
  cloudId : Option String
  authMethod : String
  basicCreds : Option (String × String)
  apiKey : Option String
  disableSSL : Bool

/-- Environment of the add command: outcome of the temporary client's ping
and the environment of the subsequent `connectToCluster` call. -/
structure AddCommandEnv where
  tempPingOk : Bool
  connectEnv : ConnectEnv

/-- Profile record saved by the add command. -/
def mkAddedConfig (inp : AddClusterInput) : ClusterConfig :=
  { id := inp.clusterId
    name := inp.name
    deploymentType := inp.deploymentType
    nodeUrl := inp.nodeUrl
    cloudId := inp.cloudId
    authMethod := inp.authMethod
    disableSSL := inp.disableSSL }

/-- Mirror of the `esExt.addCluster` command body (lines 72-107): the
process-wide TLS flag is mutated before the test, then a temporary client
pings; only if that probe succeeds are the profile and credentials saved
and `connectToCluster` invoked.  A failing probe aborts before anything is
persisted. -/
def addClusterCommand (s : ExtState) (inp : AddClusterInput)
    (env : AddCommandEnv) : Bool × ExtState :=
  let s0 := if inp.disableSSL then { s with envTlsVerifyDisabled := true } else s
  if env.tempPingOk then
    let config := mkAddedConfig inp
    let s1 := addCluster s0 config
    let s2 := storeClusterCredentials s1 inp.clusterId inp.authMethod
      inp.basicCreds inp.apiKey
    let s3 := (connectToCluster s2 inp.clusterId env.connectEnv).2
    (true, { s3 with refreshCount := s3.refreshCount + 1 })
  else (false, s0)

/-- One entry of an import document (`ClusterExportData`): the export shape
carries no ids, and any field may be missing. -/
structure ImportEntry where
  name : Option String
  deploymentType : Option String
  nodeUrl : Option String
  cloudId : Option String
  authMethod : Option String
  disableSSL : Option Bool
deriving Repr, DecidableEq

/-- Answer to the name-collision warning during import. -/
inductive ImportChoice where
  | yes
  | no
  | cancel
deriving Repr, DecidableEq

/-- Required-field validation of one import entry (line 1735). -/
def entryValid (e : ImportEntry) : Bool :=
  truthy e.name && truthy e.deploymentType && truthy e.authMethod

/-- Mirror of the collision lookup (line 1742). -/
def findByName (clusters : List (String × ClusterConfig)) (name : String) :
    Option ClusterConfig :=
  (clusters.find? (fun p => p.2.name == name)).map (·.2)

/-- Config created for an imported entry; its id is freshly generated. -/
def mkImportedConfig (e : ImportEntry) (id : String) : ClusterConfig :=
  { id := id
    name := e.name.getD ""
    deploymentType := e.deploymentType.getD ""
    nodeUrl := e.nodeUrl
    cloudId := e.cloudId
    authMethod := e.authMethod.getD ""
    disableSSL := e.disableSSL.getD false }

/-- Loop body of `importClusters` (lines 1733-1774): skip-and-count invalid
entries; on a name collision ask (Yes/No/Cancel) where Cancel breaks the
loop, No skips, Yes removes the existing profile first; imported entries
get a generated id and are added with no credentials.  `choice` is indexed
by the entry's position, `gen` is the fresh-id stream with counter `k`. -/
def importLoop (s : ExtState) (entries : List ImportEntry)
    (choice : Nat → ImportChoice) (gen : Nat → String) (idx k imported skipped : Nat) :
    ExtState × Nat × Nat :=
  match entries with
  | [] => (s, imported, skipped)
  | e :: rest =>
    if entryValid e then
      match findByName s.clusters (e.name.getD "") with
      | some existing =>
        match choice idx with
        | ImportChoice.cancel => (s, imported, skipped)
        | ImportChoice.no =>
          importLoop s rest choice gen (idx + 1) k imported (skipped + 1)
        | ImportChoice.yes =>
          let s1 := removeCluster s existing.id
          let cfg := mkImportedConfig e (gen k)
          importLoop (addCluster s1 cfg) rest choice gen (idx + 1) (k + 1)
            (imported + 1) skipped
      | none =>
        let cfg := mkImportedConfig e (gen k)
        importLoop (addCluster s cfg) rest choice gen (idx + 1) (k + 1)
          (imported + 1) skipped
    else importLoop s rest choice gen (idx + 1) k imported (skipped + 1)

/-- Mirror of `ESExplorerProvider.importClusters` over an already-parsed
document; returns the final state and the (imported, skipped) counts. -/
def importClusters (s : ExtState) (doc : List ImportEntry)
    (choice : Nat → ImportChoice) (gen : Nat → String) : ExtState × Nat × Nat :=
  importLoop s doc choice gen 0 0 0 0

/-! ### Concrete fixtures used by witnesses and counterexamples -/

def cfgSelfNone (id name url : String) : ClusterConfig :=
  { id := id
    name := name
    deploymentType := "Self-managed Cluster"
    nodeUrl := some url
    cloudId := none
    authMethod := "None"
    disableSSL := false }

def snapG : ClusterHealth :=
  { status := "green"
    clusterName := "A"
    numberOfNodes := 1
    numberOfDataNodes := 1
    activePrimaryShards := 1
    activeShards := 1
    lastChecked := 5 }

def optsA : ClientOptions := { node := some "http://localhost:9200" }

def stateC4 : ExtState :=
  { emptyState with
      clusters := [("a", cfgSelfNone "a" "A" "http://localhost:9200")]
      clients := [("a", optsA)]
      clusterHealth := [("a", snapG)]
      gsClusterIds := ["a"]
      gsConnectedClusters := ["a"] }

def cfgSSL : ClusterConfig :=
  { id := "a"
    name := "A"
    deploymentType := "Self-managed Cluster"
    nodeUrl := some "https://host:9200"
    cloudId := none
    authMethod := "None"
    disableSSL := true }

def stateC9 : ExtState := { emptyState with clusters := [("a", cfgSSL)] }

def envC9 : ConnectEnv :=
  { promptUsername := none
    promptPassword := none
    promptApiKey := none
    pingOk := true
    healthResult := none
    now := 0 }

def stateC7 : ExtState :=
  { emptyState with
      clusters := [("a", cfgSelfNone "a" "A" "http://a:9200"),
                   ("b", cfgSelfNone "b" "B" "http://b:9200")]
      activeClusterId := some "a" }

def envC7 : ConnectEnv :=
  { promptUsername := none
    promptPassword := none
    promptApiKey := none
    pingOk := true
    healthResult := none
    now := 0 }

def stateC7s : ExtState :=
  { emptyState with
      clusters := [("b", cfgSelfNone "b" "B" "http://b:9200")] }

def envC7s : SilentEnv := { pingOk := true, healthResult := none, now := 0 }

def rawB : RawHealth :=
  { status := some "yellow"
    cluster_name := some "B"
    number_of_nodes := some 2
    number_of_data_nodes := some 1
    active_primary_shards := some 3
    active_shards := some 6 }

def stateC5 : ExtState :=
  { emptyState with clients := [("a", optsA), ("b", optsA)] }

def envC5 : String → Option RawHealth :=
  fun id => if id = "b" then some rawB else none

def inpC2 : AddClusterInput :=
  { clusterId := "cluster-1"
    name := "Local"
    deploymentType := "Self-managed Cluster"
    nodeUrl := some "http://localhost:9200"
    cloudId := none
    authMethod := "None"
    basicCreds := none
    apiKey := none
    disableSSL := false }

def envC2fail : AddCommandEnv := { tempPingOk := false, connectEnv := envC7 }

def envC2ok : AddCommandEnv :=
  { tempPingOk := true
    connectEnv :=
      { promptUsername := none
        promptPassword := none
        promptApiKey := none
        pingOk := false
        healthResult := none
        now := 0 } }

def cfgBasicB : ClusterConfig :=
  { id := "b"
    name := "B"
    deploymentType := "Self-managed Cluster"
    nodeUrl := some "http://b:9200"
    cloudId := none
    authMethod := "Basic: Username/Password"
    disableSSL := false }

def stateC3 : ExtState :=
  { emptyState with
      clusters := [("b", cfgBasicB)]
      gsConnectedClusters := ["b"] }

def envC3ok : SilentEnv := { pingOk := true, healthResult := none, now := 0 }

def envC3fail : String → SilentEnv :=
  fun _ => { pingOk := false, healthResult := none, now := 0 }

def stateC6 : ExtState :=
  { emptyState with
      clusters := [("a", cfgSelfNone "a" "A" "http://a:9200"),
                   ("b", cfgSelfNone "b" "B" "http://b:9200"),
                   ("c", cfgSelfNone "c" "C" "http://c:9200")]
      clients := [("a", optsA), ("b", optsA)]
      clusterHealth := [("a", snapG)]
      activeClusterId := some "a"
      autoRefreshEnabled := true
      refreshTimerRunning := true
      gsClusterIds := ["a", "b", "c"]
      gsConnectedClusters := ["a", "b"]
      gsAutoRefreshEnabled := true
      secretConfigs := [("a", cfgSelfNone "a" "A" "http://a:9200")]
      secretCreds := [] }

def entryBad : ImportEntry :=
  { name := none
    deploymentType := some "Self-managed Cluster"
    nodeUrl := some "http://x:9200"
    cloudId := none
    authMethod := some "None"
    disableSSL := some false }

def entryB : ImportEntry :=
  { name := some "B"
    deploymentType := some "Self-managed Cluster"
    nodeUrl := some "http://b2:9200"
    cloudId := none
    authMethod := some "None"
    disableSSL := none }

def genF : Nat → String := fun _ => "fresh"

def chCancel : Nat → ImportChoice := fun _ => ImportChoice.cancel

def stateC8 : ExtState :=
  { emptyState with
      clusters := [("b", cfgBasicB)]
      secretCreds := [("k", "v")] }

/-! ### Association-map lemmas -/

theorem mget_mset_self {α : Type} (m : List (String × α)) (k : String) (v : α) :
    mget (mset m k v) k = some v := by
  induction m with
  | nil => simp [mset, mget]
  | cons p rest ih =>
    obtain ⟨k', v'⟩ := p
    by_cases h : k' = k
    · simp [mset, h, mget]
    · simp [mset, h, mget, ih]

theorem mget_mset_ne {α : Type} (m : List (String × α)) (k k' : String) (v : α)
    (h : k' ≠ k) : mget (mset m k v) k' = mget m k' := by
  induction m with
  | nil => simp [mset, mget, Ne.symm h]
  | cons p rest ih =>
    obtain ⟨k0, v0⟩ := p
    by_cases h0 : k0 = k
    · subst h0
      simp [mset, mget, Ne.symm h]
    · simp only [mset, if_neg h0, mget]
      by_cases h1 : k0 = k'
      · simp [h1]
      · simp [h1, ih]

theorem mget_mdel_self {α : Type} (m : List (String × α)) (k : String) :
    mget (mdel m k) k = none := by
  induction m with
  | nil => simp [mdel, mget]
  | cons p rest ih =>
    obtain ⟨k0, v0⟩ := p
    by_cases h0 : k0 = k
    · have hb : (k0 != k) = false := by simp [h0]
      simpa [mdel, List.filter_cons, hb] using ih
    · have hb : (k0 != k) = true := by simp [h0]
      simpa [mdel, List.filter_cons, hb, mget, h0] using ih

theorem mget_mdel_ne {α : Type} (m : List (String × α)) (k k' : String)
    (h : k' ≠ k) : mget (mdel m k) k' = mget m k' := by
  induction m with
  | nil => simp [mdel, mget]
  | cons p rest ih =>
    obtain ⟨k0, v0⟩ := p
    by_cases h0 : k0 = k
    · subst h0
      have hb : (k0 != k0) = false := by simp
      have hne : k0 ≠ k' := Ne.symm h
      simpa [mdel, List.filter_cons, hb, mget, hne] using ih
    · have hb : (k0 != k) = true := by simp [h0]
      by_cases h1 : k0 = k'
      · simp [mdel, List.filter_cons, hb, mget, h1, h]
      · simpa [mdel, List.filter_cons, hb, mget, h1] using ih

theorem mget_mdel_none {α : Type} (m : List (String × α)) (k k' : String)
    (h : mget m k' = none) : mget (mdel m k) k' = none := by
  by_cases hk : k' = k
  · subst hk; exact mget_mdel_self m k'
  · rw [mget_mdel_ne m k k' hk]; exact h

theorem mget_mdel_isSome {α : Type} (m : List (String × α)) (k k' : String)
    (h : (mget (mdel m k) k').isSome = true) : (mget m k').isSome = true := by
  by_cases hk : k' = k
  · subst hk; rw [mget_mdel_self] at h; simp at h
  · rwa [mget_mdel_ne m k k' hk] at h

theorem mget_mset_isSome {α : Type} (m : List (String × α)) (k k' : String)
    (v : α) (h : (mget (mset m k v) k').isSome = true) :
    k' = k ∨ (mget m k').isSome = true := by
  by_cases hk : k' = k
  · exact Or.inl hk
  · right; rwa [mget_mset_ne m k k' v hk] at h

theorem contains_append_self (l : List String) (a : String) :
    (l ++ [a]).contains a = true := by
  induction l with
  | nil => simp
  | cons x xs ih => simp [ih]

/-! ### Per-operation field equations -/

theorem disconnect_clients (s : ExtState) (id : String) :
    (disconnectFromCluster s id).clients = mdel s.clients id := by
  simp only [disconnectFromCluster, removeConnectedCluster]
  split <;> rfl

theorem disconnect_health (s : ExtState) (id : String) :
    (disconnectFromCluster s id).clusterHealth = mdel s.clusterHealth id := by
  simp only [disconnectFromCluster, removeConnectedCluster]
  split <;> rfl

theorem removeCluster_clients (s : ExtState) (id : String) :
    (removeCluster s id).clients = mdel s.clients id := by
  simp only [removeCluster, removeConnectedCluster]
  split <;> rfl

theorem removeCluster_clusters (s : ExtState) (id : String) :
    (removeCluster s id).clusters = mdel s.clusters id := by
  simp only [removeCluster, removeConnectedCluster]
  split <;> rfl

theorem removeCluster_health (s : ExtState) (id : String) :
    (removeCluster s id).clusterHealth = s.clusterHealth := by
  simp only [removeCluster, removeConnectedCluster]
  split <;> rfl

theorem removeCluster_secretCreds (s : ExtState) (id : String) :
    (removeCluster s id).secretCreds =
      mdel (mdel (mdel s.secretCreds (credKey id "username"))
        (credKey id "password")) (credKey id "apiKey") := by
  simp only [removeCluster, removeConnectedCluster]
  split <;> rfl

theorem clearSecretsLoop_frame (ids : List String) (s : ExtState) :
    (clearSecretsLoop s ids).clusters = s.clusters ∧
    (clearSecretsLoop s ids).clients = s.clients ∧
    (clearSecretsLoop s ids).clusterHealth = s.clusterHealth ∧
    (clearSecretsLoop s ids).activeClusterId = s.activeClusterId ∧
    (clearSecretsLoop s ids).autoRefreshEnabled = s.autoRefreshEnabled ∧
    (clearSecretsLoop s ids).refreshTimerRunning = s.refreshTimerRunning ∧
    (clearSecretsLoop s ids).gsClusterIds = s.gsClusterIds ∧
    (clearSecretsLoop s ids).gsConnectedClusters = s.gsConnectedClusters ∧
    (clearSecretsLoop s ids).gsAutoRefreshEnabled = s.gsAutoRefreshEnabled ∧
    (clearSecretsLoop s ids).caCertificate = s.caCertificate ∧
    (clearSecretsLoop s ids).envTlsVerifyDisabled = s.envTlsVerifyDisabled ∧
    (clearSecretsLoop s ids).refreshCount = s.refreshCount := by
  induction ids generalizing s with
  | nil =>
    exact ⟨rfl, rfl, rfl, rfl, rfl, rfl, rfl, rfl, rfl, rfl, rfl, rfl⟩
  | cons id rest ih =>
    simp only [clearSecretsLoop]
    exact ih _

/-- Claim C4 counterexample: on the concrete state with one connected
cluster `a` carrying a health snapshot, `removeCluster "a"` removes the
Connection Registry handle but leaves the HealthSnapshot in the Health
Cache, so the claimed invariant that every handle-removing operation also
purges the snapshot is false. -/
theorem c4_counterexample :
    mget (removeCluster stateC4 "a").clients "a" = none ∧
    mget (removeCluster stateC4 "a").clusterHealth "a" = some snapG := by
  constructor <;> rfl

/-- Claim C4 (amended): `disconnectFromCluster` removes both the handle
and the snapshot; `removeCluster` removes the handle but leaves the Health
Cache entirely untouched; the clear-all command touches neither the
Connection Registry nor the Health Cache in memory. -/
theorem c4_snapshot_lifecycle (s : ExtState) (id : String) :
    mget (disconnectFromCluster s id).clients id = none ∧
    mget (disconnectFromCluster s id).clusterHealth id = none ∧
    mget (removeCluster s id).clients id = none ∧
    (removeCluster s id).clusterHealth = s.clusterHealth ∧
    (clearAllClusterData s).clients = s.clients ∧
    (clearAllClusterData s).clusterHealth = s.clusterHealth := by
  refine ⟨?_, ?_, ?_, removeCluster_health s id, ?_, ?_⟩
  · rw [disconnect_clients]; exact mget_mdel_self _ _
  · rw [disconnect_health]; exact mget_mdel_self _ _
  · rw [removeCluster_clients]; exact mget_mdel_self _ _
  · simp only [clearAllClusterData]
    exact (clearSecretsLoop_frame _ _).2.1
  · simp only [clearAllClusterData]
    exact (clearSecretsLoop_frame _ _).2.2.1

/-- Claim C9: connecting the profile `a`, whose disable-TLS flag is set,
flips the process-wide TLS-verification switch
(`process.env.NODE_TLS_REJECT_UNAUTHORIZED = '0'`), so the disabling is
not confined to that profile's per-connection client configuration: the
global state every other connection sees changes. -/
theorem c9_tls_global_mutation :
    stateC9.envTlsVerifyDisabled = false ∧
    (connectToCluster stateC9 "a" envC9).1 = true ∧
    ((connectToCluster stateC9 "a" envC9).2).envTlsVerifyDisabled = true := by
  refine ⟨rfl, rfl, rfl⟩

/-- Claim C10: `addCluster` persists the profile and sets the active
pointer only when none is set; every other piece of state — registry,
health cache, reconnect-set, credentials, auto-refresh, TLS flag, CA — is
left unchanged, and other profiles' table entries are untouched. -/
theorem c10_add_cluster_frame (s : ExtState) (config : ClusterConfig) :
    (addCluster s config).activeClusterId =
      (if s.activeClusterId = none then some config.id else s.activeClusterId) ∧
    (addCluster s config).clients = s.clients ∧
    (addCluster s config).clusterHealth = s.clusterHealth ∧
    (addCluster s config).gsConnectedClusters = s.gsConnectedClusters ∧
    (addCluster s config).secretCreds = s.secretCreds ∧
    (addCluster s config).gsAutoRefreshEnabled = s.gsAutoRefreshEnabled ∧
    (addCluster s config).autoRefreshEnabled = s.autoRefreshEnabled ∧
    (addCluster s config).refreshTimerRunning = s.refreshTimerRunning ∧
    (addCluster s config).envTlsVerifyDisabled = s.envTlsVerifyDisabled ∧
    (addCluster s config).caCertificate = s.caCertificate ∧
    mget (addCluster s config).clusters config.id = some config ∧
    (∀ id, id ≠ config.id →
      mget (addCluster s config).clusters id = mget s.clusters id) := by
  by_cases hc : config.id ∈ s.gsClusterIds <;>
    by_cases ha : s.activeClusterId = none <;>
      refine ⟨?_, ?_, ?_, ?_, ?_, ?_, ?_, ?_, ?_, ?_, ?_, ?_⟩ <;>
        first
        | (intro id hid
           simp [addCluster, saveClusterConfig, hc, ha, mget_mset_ne _ _ _ _ hid])
        | (simp [addCluster, saveClusterConfig, hc, ha, mget_mset_self])

theorem saveConnectedCluster_frame (s : ExtState) (id : String) :
    (saveConnectedCluster s id).clusters = s.clusters ∧
    (saveConnectedCluster s id).clients = s.clients ∧
    (saveConnectedCluster s id).clusterHealth = s.clusterHealth ∧
    (saveConnectedCluster s id).activeClusterId = s.activeClusterId ∧
    (saveConnectedCluster s id).secretConfigs = s.secretConfigs ∧
    (saveConnectedCluster s id).secretCreds = s.secretCreds ∧
    (saveConnectedCluster s id).gsClusterIds = s.gsClusterIds ∧
    (saveConnectedCluster s id).envTlsVerifyDisabled = s.envTlsVerifyDisabled := by
  simp only [saveConnectedCluster]
  split <;> exact ⟨rfl, rfl, rfl, rfl, rfl, rfl, rfl, rfl⟩

theorem saveConnectedCluster_records (s : ExtState) (id : String) :
    (saveConnectedCluster s id).gsConnectedClusters.contains id = true := by
  simp only [saveConnectedCluster]
  split_ifs with h
  · exact h
  · exact contains_append_self _ _

theorem resolveCredentials_frame (s : ExtState) (id : String)
    (cfg : ClusterConfig) (env : ConnectEnv) (s1 : ExtState)
    (h : resolveCredentials s id cfg env = some s1) :
    s1.clusters = s.clusters ∧
    s1.clients = s.clients ∧
    s1.clusterHealth = s.clusterHealth ∧
    s1.activeClusterId = s.activeClusterId ∧
    s1.gsClusterIds = s.gsClusterIds ∧
    s1.gsConnectedClusters = s.gsConnectedClusters ∧
    s1.gsAutoRefreshEnabled = s.gsAutoRefreshEnabled ∧
    s1.secretConfigs = s.secretConfigs ∧
    s1.caCertificate = s.caCertificate ∧
    s1.envTlsVerifyDisabled = s.envTlsVerifyDisabled ∧
    s1.autoRefreshEnabled = s.autoRefreshEnabled ∧
    s1.refreshTimerRunning = s.refreshTimerRunning ∧
    s1.refreshCount = s.refreshCount := by
  simp only [resolveCredentials] at h
  split_ifs at h <;>
    first
      | exact Option.noConfusion h
      | (injection h with h2
         subst h2
         exact ⟨rfl, rfl, rfl, rfl, rfl, rfl, rfl, rfl, rfl, rfl, rfl, rfl, rfl⟩)

/-- Witness for C10 at a concrete input: adding a profile to a state whose
active pointer is already set leaves that pointer alone and touches no
unrelated table. -/
theorem c10_witness :
    mget (addCluster { stateC4 with activeClusterId := some "a" }
        (cfgSelfNone "b" "B" "http://other:9200")).clusters "a" =
      mget { stateC4 with activeClusterId := some "a" }.clusters "a" :=
  (c10_add_cluster_frame { stateC4 with activeClusterId := some "a" }
    (cfgSelfNone "b" "B" "http://other:9200")).2.2.2.2.2.2.2.2.2.2.2 "a"
    (by decide)

/-- Claim C7 counterexample: with the active pointer already at `a`, a
successful interactive `connectToCluster "b"` reassigns the active pointer
to `b` (line 669 assigns unconditionally), contradicting the claim that
the interactive connect path leaves an already-set pointer unchanged. -/
theorem c7_counterexample :
    stateC7.activeClusterId = some "a" ∧
    (connectToCluster stateC7 "b" envC7).1 = true ∧
    ((connectToCluster stateC7 "b" envC7).2).activeClusterId = some "b" :=
  ⟨rfl, rfl, rfl⟩

/-- Claim C7 (amended): a successful interactive connect always sets the
active pointer to the connected id, overwriting any previous value; only
the silent reconnect path is conditional, setting the pointer to the id
exactly when no active pointer was set. -/
theorem c7_active_pointer :
    (∀ (s : ExtState) (id : String) (env : ConnectEnv) (cfg : ClusterConfig)
        (s1 : ExtState),
      mget s.clusters id = some cfg →
      resolveCredentials s id cfg env = some s1 →
      env.pingOk = true →
      ((connectToCluster s id env).2).activeClusterId = some id) ∧
    (∀ (s : ExtState) (id : String) (env : SilentEnv),
      (connectToClusterSilently s id env).success = true →
      (connectToClusterSilently s id env).state.activeClusterId =
        (if s.activeClusterId = none then some id else s.activeClusterId)) := by
  constructor
  · intro s id env cfg s1 hcfg hcred hp
    simp only [connectToCluster, hcfg, hcred]
    simp only [connectAttempt, hp, if_true]
    have h4 := (saveConnectedCluster_frame
      { (if cfg.disableSSL then { s1 with envTlsVerifyDisabled := true } else s1) with
          clients := mset (if cfg.disableSSL then
            { s1 with envTlsVerifyDisabled := true } else s1).clients id
            (buildClientOptions s1 id cfg)
          activeClusterId := some id } id).2.2.2.1
    simpa using h4
  · intro s id env hsucc
    cases hcfg : mget s.clusters id with
    | none => simp [connectToClusterSilently, hcfg] at hsucc
    | some cfg =>
      cases hp : env.pingOk with
      | false => simp [connectToClusterSilently, hcfg, hp] at hsucc
      | true =>
        by_cases hd : cfg.disableSSL = true <;>
          by_cases ha : s.activeClusterId = none <;>
            simp [connectToClusterSilently, hcfg, hp, hd, ha]

/-- Witness for C7 (amended) at concrete inputs: interactive connect
moves the pointer from `a` to `b`; a silent connect on a state with no
active pointer sets it to the connected id. -/
theorem c7_witness :
    ((connectToCluster stateC7 "b" envC7).2).activeClusterId = some "b" ∧
    (connectToClusterSilently stateC7s "b" envC7s).state.activeClusterId =
      some "b" := by
  constructor
  · exact c7_active_pointer.1 stateC7 "b" envC7
      (cfgSelfNone "b" "B" "http://b:9200") stateC7 rfl rfl rfl
  · have h := c7_active_pointer.2 stateC7s "b" envC7s rfl
    simpa using h

/-! ### Health-tick lemmas and C5 -/

theorem refreshHealthLoop_not_mem (entries : List (String × ClientOptions))
    (health : List (String × ClusterHealth)) (env : String → Option RawHealth)
    (now : Nat) (id : String) (h : id ∉ entries.map Prod.fst) :
    mget (refreshHealthLoop health entries env now) id = mget health id := by
  induction entries generalizing health with
  | nil => rfl
  | cons p rest ih =>
    obtain ⟨k, o⟩ := p
    simp only [List.map_cons, List.mem_cons] at h
    push_neg at h
    simp only [refreshHealthLoop]
    rw [ih _ h.2, mget_mset_ne _ _ _ _ h.1]

theorem refreshHealthLoop_mem (entries : List (String × ClientOptions))
    (health : List (String × ClusterHealth)) (env : String → Option RawHealth)
    (now : Nat) (id : String) (h : id ∈ entries.map Prod.fst) :
    mget (refreshHealthLoop health entries env now) id =
      some (tickSnapshot (env id) now) := by
  induction entries generalizing health with
  | nil => simp at h
  | cons p rest ih =>
    obtain ⟨k, o⟩ := p
    by_cases hr : id ∈ rest.map Prod.fst
    · simp only [refreshHealthLoop]
      exact ih _ hr
    · have hk : id = k := by
        simp only [List.map_cons, List.mem_cons] at h
        tauto
      subst hk
      simp only [refreshHealthLoop]
      rw [refreshHealthLoop_not_mem _ _ _ _ _ hr, mget_mset_self]

/-- Claim C5: on a health-poll tick, every registered id's snapshot is
rewritten to the result of its own query only — a failing query produces
the `unknown` snapshot for that id without influencing any other id's
update — ids outside the Connection Registry keep their cache entry, and
the observer notification fires exactly once per tick. -/
theorem c5_health_tick (s : ExtState) (env : String → Option RawHealth)
    (now : Nat) :
    (∀ id, id ∈ s.clients.map Prod.fst →
      mget (refreshClusterHealth s env now).clusterHealth id =
        some (tickSnapshot (env id) now)) ∧
    (∀ id, id ∈ s.clients.map Prod.fst → env id = none →
      mget (refreshClusterHealth s env now).clusterHealth id =
        some (unknownSnapshot now)) ∧
    (∀ id, id ∉ s.clients.map Prod.fst →
      mget (refreshClusterHealth s env now).clusterHealth id =
        mget s.clusterHealth id) ∧
    (refreshClusterHealth s env now).refreshCount = s.refreshCount + 1 := by
  refine ⟨?_, ?_, ?_, rfl⟩
  · intro id hm
    simpa [refreshClusterHealth] using
      refreshHealthLoop_mem s.clients s.clusterHealth env now id hm
  · intro id hm he
    have h := refreshHealthLoop_mem s.clients s.clusterHealth env now id hm
    simpa [refreshClusterHealth, he, tickSnapshot] using h
  · intro id hm
    simpa [refreshClusterHealth] using
      refreshHealthLoop_not_mem s.clients s.clusterHealth env now id hm

/-- Witness for C5 at a concrete input: in one tick over registered ids
`a` and `b`, the failing query for `a` yields its `unknown` snapshot while
`b` still receives its health data, and the notification count rises by
one. -/
theorem c5_witness :
    mget (refreshClusterHealth stateC5 envC5 7).clusterHealth "a" =
      some (unknownSnapshot 7) ∧
    mget (refreshClusterHealth stateC5 envC5 7).clusterHealth "b" =
      some (mkSnapshot rawB 7) ∧
    (refreshClusterHealth stateC5 envC5 7).refreshCount = 1 := by
  refine ⟨?_, ?_, (c5_health_tick stateC5 envC5 7).2.2.2⟩
  · exact (c5_health_tick stateC5 envC5 7).2.1 "a" (by decide) rfl
  · have h := (c5_health_tick stateC5 envC5 7).1 "b" (by decide)
    simpa [envC5, tickSnapshot] using h

/-! ### Connect-attempt lemmas and C1 -/

theorem connectAttempt_success (s : ExtState) (id : String)
    (cfg : ClusterConfig) (env : ConnectEnv) (hp : env.pingOk = true) :
    (connectAttempt s id cfg env).1 = true ∧
    (mget ((connectAttempt s id cfg env).2).clients id).isSome = true ∧
    ((connectAttempt s id cfg env).2).gsConnectedClusters.contains id = true ∧
    mget ((connectAttempt s id cfg env).2).clusterHealth id =
      some (tickSnapshot env.healthResult env.now) := by
  by_cases hd : cfg.disableSSL = true <;>
    by_cases hgc : id ∈ s.gsConnectedClusters <;>
      simp [connectAttempt, saveConnectedCluster, hp, hd, hgc, mget_mset_self]

theorem connectAttempt_failure (s : ExtState) (id : String)
    (cfg : ClusterConfig) (env : ConnectEnv) (hp : env.pingOk = false) :
    (connectAttempt s id cfg env).1 = false ∧
    ((connectAttempt s id cfg env).2).clients = s.clients ∧
    ((connectAttempt s id cfg env).2).gsConnectedClusters =
      s.gsConnectedClusters := by
  by_cases hd : cfg.disableSSL = true <;> simp [connectAttempt, hp, hd]

/-- Claim C1: for a known profile id whose credential resolution succeeds,
`connectToCluster` reports success exactly when the liveness probe does;
on success the handle is installed, the id is recorded in the durable
reconnect-set and the Health Cache is seeded with the immediate query's
result — an `unknown` snapshot when that seed query fails, success still
being reported — while on probe failure the registry and the reconnect-set
are exactly as before. -/
theorem c1_connect_contract (s : ExtState) (id : String) (cfg : ClusterConfig)
    (env : ConnectEnv) (s1 : ExtState)
    (hcfg : mget s.clusters id = some cfg)
    (hcred : resolveCredentials s id cfg env = some s1) :
    (connectToCluster s id env).1 = env.pingOk ∧
    (env.pingOk = true →
      (mget ((connectToCluster s id env).2).clients id).isSome = true ∧
      ((connectToCluster s id env).2).gsConnectedClusters.contains id = true ∧
      mget ((connectToCluster s id env).2).clusterHealth id =
        some (tickSnapshot env.healthResult env.now) ∧
      (env.healthResult = none →
        mget ((connectToCluster s id env).2).clusterHealth id =
          some (unknownSnapshot env.now))) ∧
    (env.pingOk = false →
      ((connectToCluster s id env).2).clients = s.clients ∧
      ((connectToCluster s id env).2).gsConnectedClusters =
        s.gsConnectedClusters) := by
  have hframe := resolveCredentials_frame s id cfg env s1 hcred
  simp only [connectToCluster, hcfg, hcred]
  refine ⟨?_, ?_, ?_⟩
  · cases hp : env.pingOk
    · exact (connectAttempt_failure s1 id cfg env hp).1
    · exact (connectAttempt_success s1 id cfg env hp).1
  · intro hp
    obtain ⟨_, h2, h3, h4⟩ := connectAttempt_success s1 id cfg env hp
    refine ⟨h2, h3, h4, ?_⟩
    intro hnone
    simpa [hnone, tickSnapshot] using h4
  · intro hp
    obtain ⟨_, h2, h3⟩ := connectAttempt_failure s1 id cfg env hp
    exact ⟨h2.trans hframe.2.1, h3.trans hframe.2.2.2.2.2.1⟩

/-- Witness for C1 at a concrete input: connecting the known,
credential-free profile `b` with a succeeding probe and a failing seed
health query reports success and leaves the `unknown` snapshot. -/
theorem c1_witness :
    (connectToCluster stateC7s "b" envC7).1 = true ∧
    mget ((connectToCluster stateC7s "b" envC7).2).clusterHealth "b" =
      some (unknownSnapshot 0) ∧
    ((connectToCluster stateC7s "b" envC7).2).gsConnectedClusters.contains "b" =
      true := by
  have h := c1_connect_contract stateC7s "b"
    (cfgSelfNone "b" "B" "http://b:9200") envC7 stateC7s rfl rfl
  exact ⟨h.1, (h.2.1 rfl).2.2.2 rfl, (h.2.1 rfl).2.1⟩

/-! ### Add-flow lemmas and C2 -/

theorem addCluster_tables (s : ExtState) (config : ClusterConfig) :
    (addCluster s config).clusters = mset s.clusters config.id config ∧
    (addCluster s config).secretConfigs = mset s.secretConfigs config.id config ∧
    (addCluster s config).secretCreds = s.secretCreds := by
  by_cases hc : config.id ∈ s.gsClusterIds <;>
    by_cases ha : s.activeClusterId = none <;>
      simp [addCluster, saveClusterConfig, hc, ha]

theorem storeClusterCredentials_frame (s : ExtState) (id am : String)
    (bc : Option (String × String)) (ak : Option String) :
    (storeClusterCredentials s id am bc ak).clusters = s.clusters ∧
    (storeClusterCredentials s id am bc ak).secretConfigs = s.secretConfigs ∧
    (storeClusterCredentials s id am bc ak).gsClusterIds = s.gsClusterIds := by
  rcases bc with _ | ⟨u, p⟩ <;> rcases ak with _ | a <;>
    simp only [storeClusterCredentials] <;> split_ifs <;>
      exact ⟨rfl, rfl, rfl⟩

theorem connectAttempt_tables (s : ExtState) (id : String)
    (cfg : ClusterConfig) (env : ConnectEnv) :
    ((connectAttempt s id cfg env).2).clusters = s.clusters ∧
    ((connectAttempt s id cfg env).2).secretConfigs = s.secretConfigs ∧
    ((connectAttempt s id cfg env).2).gsClusterIds = s.gsClusterIds := by
  by_cases hd : cfg.disableSSL = true <;> cases hp : env.pingOk <;>
    by_cases hgc : id ∈ s.gsConnectedClusters <;>
      simp [connectAttempt, saveConnectedCluster, hp, hd, hgc]

theorem connect_tables (s : ExtState) (id : String) (env : ConnectEnv) :
    ((connectToCluster s id env).2).clusters = s.clusters ∧
    ((connectToCluster s id env).2).secretConfigs = s.secretConfigs ∧
    ((connectToCluster s id env).2).gsClusterIds = s.gsClusterIds := by
  cases hcfg : mget s.clusters id with
  | none => simp [connectToCluster, hcfg]
  | some cfg =>
    cases hcred : resolveCredentials s id cfg env with
    | none => simp [connectToCluster, hcred, hcfg]
    | some s1 =>
      have hf := resolveCredentials_frame s id cfg env s1 hcred
      have hca := connectAttempt_tables s1 id cfg env
      simp only [connectToCluster, hcfg, hcred]
      exact ⟨hca.1.trans hf.1, hca.2.1.trans hf.2.2.2.2.2.2.2.1,
        hca.2.2.trans hf.2.2.2.2.1⟩

/-- Claim C2 counterexample: for the valid add-flow input `Local` whose
initial connection probe fails, the command aborts before saving anything
— no profile table entry, no stored config, no persisted id — so the
claim that the profile is persisted regardless of the connect outcome is
false. -/
theorem c2_counterexample :
    (addClusterCommand emptyState inpC2 envC2fail).1 = false ∧
    ((addClusterCommand emptyState inpC2 envC2fail).2).clusters = [] ∧
    ((addClusterCommand emptyState inpC2 envC2fail).2).secretConfigs = [] ∧
    ((addClusterCommand emptyState inpC2 envC2fail).2).gsClusterIds = [] :=
  ⟨rfl, rfl, rfl, rfl⟩

/-- Claim C2 (amended): in the add flow the profile is persisted exactly
when the initial liveness probe of the temporary client succeeds: a
failing probe aborts the command before any persistence, while after a
succeeding probe the profile is saved and remains saved regardless of the
outcome of the subsequent `connectToCluster` attempt, whose failure is
only surfaced. -/
theorem c2_add_flow (s : ExtState) (inp : AddClusterInput)
    (env : AddCommandEnv) :
    (env.tempPingOk = false →
      (addClusterCommand s inp env).1 = false ∧
      ((addClusterCommand s inp env).2).clusters = s.clusters ∧
      ((addClusterCommand s inp env).2).secretConfigs = s.secretConfigs ∧
      ((addClusterCommand s inp env).2).secretCreds = s.secretCreds ∧
      ((addClusterCommand s inp env).2).gsClusterIds = s.gsClusterIds) ∧
    (env.tempPingOk = true →
      (addClusterCommand s inp env).1 = true ∧
      mget ((addClusterCommand s inp env).2).clusters inp.clusterId =
        some (mkAddedConfig inp) ∧
      mget ((addClusterCommand s inp env).2).secretConfigs inp.clusterId =
        some (mkAddedConfig inp)) := by
  constructor
  · intro hp
    by_cases hd : inp.disableSSL = true <;> simp [addClusterCommand, hp, hd]
  · intro hp
    have key : ∀ t : ExtState,
        mget ((connectToCluster
          (storeClusterCredentials (addCluster t (mkAddedConfig inp))
            inp.clusterId inp.authMethod inp.basicCreds inp.apiKey)
          inp.clusterId env.connectEnv).2).clusters inp.clusterId =
          some (mkAddedConfig inp) ∧
        mget ((connectToCluster
          (storeClusterCredentials (addCluster t (mkAddedConfig inp))
            inp.clusterId inp.authMethod inp.basicCreds inp.apiKey)
          inp.clusterId env.connectEnv).2).secretConfigs inp.clusterId =
          some (mkAddedConfig inp) := by
      intro t
      constructor
      · rw [(connect_tables _ _ _).1, (storeClusterCredentials_frame _ _ _ _ _).1,
          (addCluster_tables t _).1]
        have : (mkAddedConfig inp).id = inp.clusterId := rfl
        rw [this, mget_mset_self]
      · rw [(connect_tables _ _ _).2.1,
          (storeClusterCredentials_frame _ _ _ _ _).2.1,
          (addCluster_tables t _).2.1]
        have : (mkAddedConfig inp).id = inp.clusterId := rfl
        rw [this, mget_mset_self]
    by_cases hd : inp.disableSSL = true <;>
      · simp only [addClusterCommand, hp, hd, if_true, if_false]
        refine ⟨?_, (key _).1, (key _).2⟩
        first
          | rfl
          | trivial

/-- Witness for C2 (amended) at a concrete input: the probe succeeds, the
subsequent connect attempt fails, and the profile is persisted anyway. -/
theorem c2_witness :
    (addClusterCommand emptyState inpC2 envC2ok).1 = true ∧
    mget ((addClusterCommand emptyState inpC2 envC2ok).2).clusters "cluster-1" =
      some (mkAddedConfig inpC2) := by
  have h := (c2_add_flow emptyState inpC2 envC2ok).2 rfl
  exact ⟨h.1, by simpa using h.2.1⟩

/-! ### Silent-reconnect lemmas and C3 -/

theorem silent_gsConnected (s : ExtState) (id : String) (env : SilentEnv) :
    (connectToClusterSilently s id env).state.gsConnectedClusters =
      s.gsConnectedClusters := by
  cases hcfg : mget s.clusters id with
  | none => simp [connectToClusterSilently, hcfg]
  | some cfg =>
    by_cases hd : cfg.disableSSL = true <;> cases hp : env.pingOk <;>
      by_cases ha : s.activeClusterId = none <;>
        simp [connectToClusterSilently, hcfg, hd, hp, ha]

theorem silent_outcome (s : ExtState) (id : String) (cfg : ClusterConfig)
    (env : SilentEnv) (hcfg : mget s.clusters id = some cfg) :
    (connectToClusterSilently s id env).success = env.pingOk ∧
    (connectToClusterSilently s id env).pingAttempted = true := by
  by_cases hd : cfg.disableSSL = true <;> cases hp : env.pingOk <;>
    by_cases ha : s.activeClusterId = none <;>
      simp [connectToClusterSilently, hcfg, hd, hp, ha]

theorem buildOptions_basic_missing (s : ExtState) (id : String)
    (cfg : ClusterConfig) (hb : cfg.authMethod = "Basic: Username/Password")
    (hu : truthy (mget s.secretCreds (credKey id "username")) = false) :
    (buildClientOptions s id cfg).authBasic = none ∧
    (buildClientOptions s id cfg).authApiKey = none := by
  cases hu0 : mget s.secretCreds (credKey id "username") with
  | none =>
    cases hp0 : mget s.secretCreds (credKey id "password") with
    | none =>
      by_cases hc : cfg.deploymentType = "Elastic Cloud" <;>
        by_cases hd : cfg.disableSSL = true <;>
          cases hca : s.caCertificate <;>
            simp [buildClientOptions, hb, hc, hd, hca, hu0, hp0]
    | some y =>
      by_cases hc : cfg.deploymentType = "Elastic Cloud" <;>
        by_cases hd : cfg.disableSSL = true <;>
          cases hca : s.caCertificate <;>
            simp [buildClientOptions, hb, hc, hd, hca, hu0, hp0]
  | some x =>
    rw [hu0] at hu
    simp only [truthy] at hu
    cases hp0 : mget s.secretCreds (credKey id "password") with
    | none =>
      by_cases hc : cfg.deploymentType = "Elastic Cloud" <;>
        by_cases hd : cfg.disableSSL = true <;>
          cases hca : s.caCertificate <;>
            simp [buildClientOptions, hb, hc, hd, hca, hu0, hp0, hu]
    | some y =>
      by_cases hc : cfg.deploymentType = "Elastic Cloud" <;>
        by_cases hd : cfg.disableSSL = true <;>
          cases hca : s.caCertificate <;>
            simp [buildClientOptions, hb, hc, hd, hca, hu0, hp0, hu]

theorem autoReconnectLoop_counts (ids : List String) (s : ExtState)
    (env : String → SilentEnv) (succ fail : Nat) :
    (autoReconnectLoop s ids env succ fail).2.1 +
      (autoReconnectLoop s ids env succ fail).2.2 =
        succ + fail + ids.length := by
  induction ids generalizing s succ fail with
  | nil => simp [autoReconnectLoop]
  | cons id rest ih =>
    cases hcfg : mget s.clusters id with
    | none =>
      simp only [autoReconnectLoop, hcfg]
      rw [ih]
      simp only [List.length_cons]
      omega
    | some cfg =>
      simp only [autoReconnectLoop, hcfg]
      by_cases hs : (connectToClusterSilently s id (env id)).success = true
      · simp only [hs, if_true]
        rw [ih]
        simp only [List.length_cons]
        omega
      · have hs2 : (connectToClusterSilently s id (env id)).success = false := by
          revert hs
          cases (connectToClusterSilently s id (env id)).success <;> simp
        simp only [hs2, Bool.false_eq_true, if_false]
        rw [ih]
        simp only [List.length_cons]
        omega

theorem autoReconnectLoop_no_add (ids : List String) (s : ExtState)
    (env : String → SilentEnv) (succ fail : Nat) (x : String)
    (hx : x ∈ (autoReconnectLoop s ids env succ fail).1.gsConnectedClusters) :
    x ∈ s.gsConnectedClusters := by
  induction ids generalizing s succ fail with
  | nil => simpa [autoReconnectLoop] using hx
  | cons id rest ih =>
    cases hcfg : mget s.clusters id with
    | none =>
      simp only [autoReconnectLoop, hcfg] at hx
      have h1 := ih _ _ _ hx
      simp only [removeConnectedCluster, List.mem_filter] at h1
      exact h1.1
    | some cfg =>
      simp only [autoReconnectLoop, hcfg] at hx
      by_cases hs : (connectToClusterSilently s id (env id)).success = true
      · rw [if_pos hs] at hx
        have h1 := ih _ _ _ hx
        rwa [silent_gsConnected] at h1
      · have hs2 : (connectToClusterSilently s id (env id)).success = false := by
          revert hs
          cases (connectToClusterSilently s id (env id)).success <;> simp
        rw [hs2] at hx
        simp only [Bool.false_eq_true, if_false] at hx
        have h1 := ih _ _ _ hx
        simp only [removeConnectedCluster, List.mem_filter] at h1
        have h2 := h1.1
        rwa [silent_gsConnected] at h2

theorem autoReconnectLoop_drops (ids : List String) (s : ExtState)
    (env : String → SilentEnv) (succ fail : Nat) (id : String)
    (hid : id ∈ ids) (hping : (env id).pingOk = false) :
    id ∉ (autoReconnectLoop s ids env succ fail).1.gsConnectedClusters := by
  induction ids generalizing s succ fail with
  | nil => cases hid
  | cons hd0 rest ih =>
    by_cases he : id = hd0
    · subst he
      cases hcfg : mget s.clusters id with
      | none =>
        simp only [autoReconnectLoop, hcfg]
        intro hmem
        have h1 := autoReconnectLoop_no_add rest _ env succ (fail + 1) id hmem
        simp [removeConnectedCluster, List.mem_filter] at h1
      | some cfg =>
        have hsucc := (silent_outcome s id cfg (env id) hcfg).1
        rw [hping] at hsucc
        simp only [autoReconnectLoop, hcfg, hsucc]
        simp only [Bool.false_eq_true, if_false]
        intro hmem
        have h1 := autoReconnectLoop_no_add rest _ env succ (fail + 1) id hmem
        simp [removeConnectedCluster, List.mem_filter] at h1
    · have hrest : id ∈ rest := by
        rcases List.mem_cons.mp hid with h | h
        · exact absurd h he
        · exact h
      cases hcfg : mget s.clusters hd0 with
      | none =>
        simp only [autoReconnectLoop, hcfg]
        exact ih _ _ _ hrest
      | some cfg =>
        simp only [autoReconnectLoop, hcfg]
        by_cases hs : (connectToClusterSilently s hd0 (env hd0)).success = true
        · rw [if_pos hs]
          exact ih _ _ _ hrest
        · have hs2 : (connectToClusterSilently s hd0 (env hd0)).success = false := by
            revert hs
            cases (connectToClusterSilently s hd0 (env hd0)).success <;> simp
          rw [hs2]
          simp only [Bool.false_eq_true, if_false]
          exact ih _ _ _ hrest

/-- Claim C3 counterexample: profile `b` requires basic auth and has no
stored credentials, yet the silent reconnect path still constructs a
client and issues the liveness probe — and when that unauthenticated
probe succeeds the reconnect even succeeds and installs the handle — so
the claim that such an attempt fails immediately without a connection
attempt being issued is false. -/
theorem c3_counterexample :
    mget stateC3.secretCreds (credKey "b" "username") = none ∧
    (connectToClusterSilently stateC3 "b" envC3ok).pingAttempted = true ∧
    (connectToClusterSilently stateC3 "b" envC3ok).success = true ∧
    (mget (connectToClusterSilently stateC3 "b" envC3ok).state.clients
      "b").isSome = true :=
  ⟨rfl, rfl, rfl, rfl⟩

/-- Claim C3 (amended): the silent reconnect path never prompts — when a
profile's required credentials are missing it simply builds the client
options without any auth and issues the probe anyway; for every id of the
reconnect-set whose probe fails, the id is absent from the reconnect-set
afterwards, and the aggregate success/failure counts reported after
attempting all ids sum to the number of attempted ids. -/
theorem c3_silent_reconnect :
    (∀ (s : ExtState) (env : String → SilentEnv),
      (autoReconnectClusters s env).2.1 + (autoReconnectClusters s env).2.2 =
        s.gsConnectedClusters.length) ∧
    (∀ (s : ExtState) (env : String → SilentEnv) (id : String),
      id ∈ s.gsConnectedClusters → (env id).pingOk = false →
      id ∉ ((autoReconnectClusters s env).1).gsConnectedClusters) ∧
    (∀ (s : ExtState) (id : String) (cfg : ClusterConfig) (env : SilentEnv),
      mget s.clusters id = some cfg →
      (connectToClusterSilently s id env).pingAttempted = true ∧
      (connectToClusterSilently s id env).success = env.pingOk) ∧
    (∀ (s : ExtState) (id : String) (cfg : ClusterConfig),
      mget s.clusters id = some cfg →
      cfg.authMethod = "Basic: Username/Password" →
      truthy (mget s.secretCreds (credKey id "username")) = false →
      (buildClientOptions s id cfg).authBasic = none ∧
      (buildClientOptions s id cfg).authApiKey = none) := by
  refine ⟨?_, ?_, ?_, ?_⟩
  · intro s env
    simpa using autoReconnectLoop_counts s.gsConnectedClusters s env 0 0
  · intro s env id hid hping
    exact autoReconnectLoop_drops s.gsConnectedClusters s env 0 0 id hid hping
  · intro s id cfg env hcfg
    have h := silent_outcome s id cfg env hcfg
    exact ⟨h.2, h.1⟩
  · intro s id cfg hcfg hb hu
    exact buildOptions_basic_missing s id cfg hb hu

/-- Witness for C3 (amended) at a concrete input: the single reconnect-set
entry `b` with missing basic credentials is probed (without auth), the
probe fails, `b` is dropped from the reconnect-set and the aggregate
counts sum to one. -/
theorem c3_witness :
    (autoReconnectClusters stateC3 envC3fail).2.1 +
      (autoReconnectClusters stateC3 envC3fail).2.2 = 1 ∧
    "b" ∉ ((autoReconnectClusters stateC3 envC3fail).1).gsConnectedClusters ∧
    (connectToClusterSilently stateC3 "b" (envC3fail "b")).pingAttempted =
      true ∧
    (buildClientOptions stateC3 "b" cfgBasicB).authBasic = none := by
  refine ⟨?_, ?_, ?_, ?_⟩
  · simpa using c3_silent_reconnect.1 stateC3 envC3fail
  · exact c3_silent_reconnect.2.1 stateC3 envC3fail "b" (by decide) rfl
  · exact (c3_silent_reconnect.2.2.1 stateC3 "b" cfgBasicB (envC3fail "b")
      rfl).1
  · exact (c3_silent_reconnect.2.2.2 stateC3 "b" cfgBasicB rfl rfl rfl).1

/-! ### Clear-all lemmas and C6 -/

theorem clearSecretsLoop_config_none (ids : List String) (s : ExtState)
    (id : String) (h : mget s.secretConfigs id = none) :
    mget (clearSecretsLoop s ids).secretConfigs id = none := by
  induction ids generalizing s with
  | nil => exact h
  | cons i rest ih =>
    simp only [clearSecretsLoop]
    exact ih _ (mget_mdel_none _ _ _ h)

theorem clearSecretsLoop_cred_none (ids : List String) (s : ExtState)
    (k : String) (h : mget s.secretCreds k = none) :
    mget (clearSecretsLoop s ids).secretCreds k = none := by
  induction ids generalizing s with
  | nil => exact h
  | cons i rest ih =>
    simp only [clearSecretsLoop]
    exact ih _ (mget_mdel_none _ _ _ (mget_mdel_none _ _ _ (mget_mdel_none _ _ _ h)))

theorem clearSecretsLoop_deletes (ids : List String) (s : ExtState)
    (id : String) (h : id ∈ ids) :
    mget (clearSecretsLoop s ids).secretConfigs id = none ∧
    mget (clearSecretsLoop s ids).secretCreds (credKey id "username") = none ∧
    mget (clearSecretsLoop s ids).secretCreds (credKey id "password") = none ∧
    mget (clearSecretsLoop s ids).secretCreds (credKey id "apiKey") = none := by
  induction ids generalizing s with
  | nil => cases h
  | cons i rest ih =>
    by_cases he : id = i
    · subst he
      simp only [clearSecretsLoop]
      refine ⟨clearSecretsLoop_config_none _ _ _ ?_,
        clearSecretsLoop_cred_none _ _ _ ?_,
        clearSecretsLoop_cred_none _ _ _ ?_,
        clearSecretsLoop_cred_none _ _ _ ?_⟩
      · exact mget_mdel_self _ _
      · exact mget_mdel_none _ _ _ (mget_mdel_none _ _ _ (mget_mdel_self _ _))
      · exact mget_mdel_none _ _ _ (mget_mdel_self _ _)
      · exact mget_mdel_self _ _
    · rcases List.mem_cons.mp h with h1 | h1
      · exact absurd h1 he
      · simp only [clearSecretsLoop]
        exact ih _ h1

/-- Claim C6 counterexample: on a state with 3 profiles (2 connected), the
clear-all command leaves both Connection Registry entries, all 3 in-memory
profile entries, the active pointer and the in-memory auto-refresh state
intact — it does not disconnect anything — so the claim that it
disconnects every connected profile and leaves zero registry entries and a
cleared active pointer is false. -/
theorem c6_counterexample :
    ((clearAllClusterData stateC6).clients).length = 2 ∧
    (clearAllClusterData stateC6).activeClusterId = some "a" ∧
    ((clearAllClusterData stateC6).clusters).length = 3 ∧
    (clearAllClusterData stateC6).autoRefreshEnabled = true :=
  ⟨rfl, rfl, rfl, rfl⟩

/-- Claim C6 (amended): the clear-all command empties the persisted
known-id list and reconnect-set, persists auto-refresh as disabled, and
deletes the stored config and every credential field of every persisted
id; but it performs no disconnect: the in-memory profile table, Connection
Registry, Health Cache, active pointer, auto-refresh flag and timer are
all left exactly as they were. -/
theorem c6_clear_all (s : ExtState) :
    (clearAllClusterData s).gsClusterIds = [] ∧
    (clearAllClusterData s).gsConnectedClusters = [] ∧
    (clearAllClusterData s).gsAutoRefreshEnabled = false ∧
    (∀ id, id ∈ s.gsClusterIds →
      mget (clearAllClusterData s).secretConfigs id = none ∧
      mget (clearAllClusterData s).secretCreds (credKey id "username") = none ∧
      mget (clearAllClusterData s).secretCreds (credKey id "password") = none ∧
      mget (clearAllClusterData s).secretCreds (credKey id "apiKey") = none) ∧
    (clearAllClusterData s).clusters = s.clusters ∧
    (clearAllClusterData s).clients = s.clients ∧
    (clearAllClusterData s).clusterHealth = s.clusterHealth ∧
    (clearAllClusterData s).activeClusterId = s.activeClusterId ∧
    (clearAllClusterData s).autoRefreshEnabled = s.autoRefreshEnabled ∧
    (clearAllClusterData s).refreshTimerRunning = s.refreshTimerRunning := by
  have hf := clearSecretsLoop_frame s.gsClusterIds
    { s with gsClusterIds := []
             gsConnectedClusters := []
             gsAutoRefreshEnabled := false }
  refine ⟨?_, ?_, ?_, ?_, ?_, ?_, ?_, ?_, ?_, ?_⟩
  · exact hf.2.2.2.2.2.2.1
  · exact hf.2.2.2.2.2.2.2.1
  · exact hf.2.2.2.2.2.2.2.2.1
  · intro id hid
    exact clearSecretsLoop_deletes s.gsClusterIds _ id hid
  · exact hf.1
  · exact hf.2.1
  · exact hf.2.2.1
  · exact hf.2.2.2.1
  · exact hf.2.2.2.2.1
  · exact hf.2.2.2.2.2.1

/-- Witness for C6 (amended) at a concrete input. -/
theorem c6_witness :
    mget (clearAllClusterData stateC6).secretConfigs "a" = none ∧
    (clearAllClusterData stateC6).gsClusterIds = [] :=
  ⟨((c6_clear_all stateC6).2.2.2.1 "a" (by decide)).1, (c6_clear_all stateC6).1⟩

/-! ### Import lemmas and C8 -/

theorem importLoop_fresh (entries : List ImportEntry) (s : ExtState)
    (choice : Nat → ImportChoice) (gen : Nat → String)
    (idx k imported skipped : Nat) (id : String)
    (h : (mget (importLoop s entries choice gen idx k imported
      skipped).1.clusters id).isSome = true) :
    (mget s.clusters id).isSome = true ∨ ∃ j, id = gen j := by
  induction entries generalizing s idx k imported skipped with
  | nil => exact Or.inl (by simpa [importLoop] using h)
  | cons e rest ih =>
    by_cases hv : entryValid e = true
    · cases hcol : findByName s.clusters (e.name.getD "") with
      | some existing =>
        cases hch : choice idx with
        | cancel =>
          simp only [importLoop, hv, hcol, hch, if_true] at h
          exact Or.inl h
        | no =>
          simp only [importLoop, hv, hcol, hch, if_true] at h
          exact ih _ _ _ _ _ h
        | yes =>
          simp only [importLoop, hv, hcol, hch, if_true] at h
          rcases ih _ _ _ _ _ h with h1 | h1
          · rw [(addCluster_tables _ _).1] at h1
            rcases mget_mset_isSome _ _ _ _ h1 with h2 | h2
            · exact Or.inr ⟨k, by simpa [mkImportedConfig] using h2⟩
            · rw [removeCluster_clusters] at h2
              exact Or.inl (mget_mdel_isSome _ _ _ h2)
          · exact Or.inr h1
      | none =>
        simp only [importLoop, hv, hcol, if_true] at h
        rcases ih _ _ _ _ _ h with h1 | h1
        · rw [(addCluster_tables _ _).1] at h1
          rcases mget_mset_isSome _ _ _ _ h1 with h2 | h2
          · exact Or.inr ⟨k, by simpa [mkImportedConfig] using h2⟩
          · exact Or.inl h2
        · exact Or.inr h1
    · have hv2 : entryValid e = false := by
        revert hv
        cases entryValid e <;> simp
      simp only [importLoop, hv2, Bool.false_eq_true, if_false] at h
      exact ih _ _ _ _ _ h

theorem importLoop_no_creds (entries : List ImportEntry) (s : ExtState)
    (choice : Nat → ImportChoice) (gen : Nat → String)
    (idx k imported skipped : Nat) (key : String)
    (h : (mget (importLoop s entries choice gen idx k imported
      skipped).1.secretCreds key).isSome = true) :
    (mget s.secretCreds key).isSome = true := by
  induction entries generalizing s idx k imported skipped with
  | nil => simpa [importLoop] using h
  | cons e rest ih =>
    by_cases hv : entryValid e = true
    · cases hcol : findByName s.clusters (e.name.getD "") with
      | some existing =>
        cases hch : choice idx with
        | cancel =>
          simp only [importLoop, hv, hcol, hch, if_true] at h
          exact h
        | no =>
          simp only [importLoop, hv, hcol, hch, if_true] at h
          exact ih _ _ _ _ _ h
        | yes =>
          simp only [importLoop, hv, hcol, hch, if_true] at h
          have h1 := ih _ _ _ _ _ h
          rw [(addCluster_tables _ _).2.2, removeCluster_secretCreds] at h1
          exact mget_mdel_isSome _ _ _
            (mget_mdel_isSome _ _ _ (mget_mdel_isSome _ _ _ h1))
      | none =>
        simp only [importLoop, hv, hcol, if_true] at h
        have h1 := ih _ _ _ _ _ h
        rwa [(addCluster_tables _ _).2.2] at h1
    · have hv2 : entryValid e = false := by
        revert hv
        cases entryValid e <;> simp
      simp only [importLoop, hv2, Bool.false_eq_true, if_false] at h
      exact ih _ _ _ _ _ h

/-- Claim C8: during import, an entry missing a required field is skipped
and counted without touching the state; a name collision answered with
Cancel stops the loop immediately, returning the state containing exactly
the entries imported so far; and every profile present after an import was
either there before or carries an id drawn from the fresh-id generator —
the document shape carries no ids at all — while the credential store
never gains an entry. -/
theorem c8_import :
    (∀ (s : ExtState) (e : ImportEntry) (rest : List ImportEntry)
        (choice : Nat → ImportChoice) (gen : Nat → String)
        (idx k imported skipped : Nat),
      entryValid e = false →
      importLoop s (e :: rest) choice gen idx k imported skipped =
        importLoop s rest choice gen (idx + 1) k imported (skipped + 1)) ∧
    (∀ (s : ExtState) (e : ImportEntry) (rest : List ImportEntry)
        (choice : Nat → ImportChoice) (gen : Nat → String)
        (idx k imported skipped : Nat) (existing : ClusterConfig),
      entryValid e = true →
      findByName s.clusters (e.name.getD "") = some existing →
      choice idx = ImportChoice.cancel →
      importLoop s (e :: rest) choice gen idx k imported skipped =
        (s, imported, skipped)) ∧
    (∀ (s : ExtState) (doc : List ImportEntry) (choice : Nat → ImportChoice)
        (gen : Nat → String) (id : String),
      (mget (importClusters s doc choice gen).1.clusters id).isSome = true →
      (mget s.clusters id).isSome = true ∨ ∃ j, id = gen j) ∧
    (∀ (s : ExtState) (doc : List ImportEntry) (choice : Nat → ImportChoice)
        (gen : Nat → String) (key : String),
      (mget (importClusters s doc choice gen).1.secretCreds key).isSome =
        true →
      (mget s.secretCreds key).isSome = true) := by
  refine ⟨?_, ?_, ?_, ?_⟩
  · intro s e rest choice gen idx k imported skipped hv
    simp [importLoop, hv]
  · intro s e rest choice gen idx k imported skipped existing hv hcol hch
    simp [importLoop, hv, hcol, hch]
  · intro s doc choice gen id h
    exact importLoop_fresh doc s choice gen 0 0 0 0 id h
  · intro s doc choice gen key h
    exact importLoop_no_creds doc s choice gen 0 0 0 0 key h

/-- Witness for C8 at concrete inputs: an entry with a missing name is
skipped and counted leaving the state untouched; Cancel on the name
collision with the existing profile `B` halts the import with nothing
changed; and the fresh-id and no-credential facts instantiate on a
concrete processed import. -/
theorem c8_witness :
    importClusters emptyState [entryBad] chCancel genF = (emptyState, 0, 1) ∧
    importLoop stateC8 [entryB] chCancel genF 0 0 0 0 = (stateC8, 0, 0) ∧
    ((mget emptyState.clusters "fresh").isSome = true ∨
      ∃ j, "fresh" = genF j) ∧
    (mget stateC8.secretCreds "k").isSome = true := by
  refine ⟨?_, ?_, ?_, ?_⟩
  · calc importClusters emptyState [entryBad] chCancel genF
        = importLoop emptyState [entryBad] chCancel genF 0 0 0 0 := rfl
      _ = importLoop emptyState [] chCancel genF 1 0 0 1 :=
          c8_import.1 emptyState entryBad [] chCancel genF 0 0 0 0 rfl
      _ = (emptyState, 0, 1) := rfl
  · exact c8_import.2.1 stateC8 entryB [] chCancel genF 0 0 0 0 cfgBasicB
      rfl rfl rfl
  · exact c8_import.2.2.1 emptyState [entryB] chCancel genF "fresh" (by rfl)
  · exact c8_import.2.2.2 stateC8 [entryB] chCancel genF "k" (by rfl)

end ProphESy
